import Mathlib

/-!
Shallow embedding of the client-database program (maim.py) and its
PostgreSQL store, together with proofs about the behaviour of its
operations.

Modelling conventions:
* The two tables (clients, phones) are lists of records plus the next
  value of each SERIAL sequence; column created_at is never consulted by
  any operation under study and is omitted.
* VARCHAR length limits are not modelled: column values are abstract
  strings.  Pattern metacharacters of ILIKE are likewise not modelled:
  a filter value v stands for the pattern percent-v-percent, i.e. a
  case-insensitive substring test against the column.
* Python keyword-argument dicts are modelled as association lists from
  key names to string values; lookup of a key returns the first match.
* SQL NULL inside a result column is modelled with Option: the phones
  column of a result row is a list of Option String, since ARRAY_AGG
  without a FILTER clause can aggregate the NULL produced by LEFT JOIN.
* Each operation returns the successor database state paired with the
  value the Python function returns; a caught psycopg2 error (unique
  constraint violation) is modelled by the explicit conflict test that
  the constraint performs.
-/

/-- One row of the clients table (created_at omitted, see header). -/
structure Client where
  client_id : Nat
  first_name : String
  last_name : String
  email : String
deriving Repr, DecidableEq

/-- One row of the phones table (created_at omitted, see header). -/
structure Phone where
  phone_id : Nat
  client_id : Nat
  phone_number : String
deriving Repr, DecidableEq

/-- The database state: both tables plus the two SERIAL sequences. -/
structure DB where
  clients : List Client
  phones : List Phone
  nextClientId : Nat
  nextPhoneId : Nat
deriving Repr, DecidableEq

/-- The state right after create_tables on a fresh database: both tables
empty, both SERIAL sequences at 1. -/
def initialDB : DB := ⟨[], [], 1, 1⟩

/-- Test used by several operations: SELECT client_id FROM clients WHERE
client_id = cid returns a row. -/
def clientExists (db : DB) (cid : Nat) : Bool :=
  db.clients.any (fun c => c.client_id == cid)

/-- The UNIQUE constraint on phones.phone_number: the number is already
present somewhere in the phones table. -/
def phoneNumberExists (db : DB) (num : String) : Bool :=
  db.phones.any (fun p => p.phone_number == num)

/-- The UNIQUE constraint on clients.email: the email is already present
in the clients table. -/
def emailExists (db : DB) (em : String) : Bool :=
  db.clients.any (fun c => c.email == em)

/-- Python dict lookup on a keyword-argument list: the value of the first
pair whose key matches, if any. -/
def getArg (kwargs : List (String × String)) (k : String) : Option String :=
  (kwargs.find? (fun kv => kv.1 == k)).map (fun kv => kv.2)

/-- Lower-cased character data of a string, the common form both sides
of an ILIKE comparison are reduced to. -/
def lowerData (s : String) : List Char := s.data.map Char.toLower

/-- Case-insensitive substring test: ILIKE with the filter value wrapped
in percent wildcards (metacharacters in the value not modelled). -/
def substrCI (pat s : String) : Bool :=
  decide (lowerData pat <:+: lowerData s)

/-- Function 3, add_phone: checks the client exists, then INSERT INTO
phones ... ON CONFLICT (phone_number) DO NOTHING RETURNING phone_id;
returns true exactly when a row came back. -/
def add_phone (db : DB) (cid : Nat) (phone : String) : DB × Bool :=
  if clientExists db cid = false then (db, false)
  else if phoneNumberExists db phone then (db, false)
  else
    ({ db with
        phones := db.phones ++ [⟨db.nextPhoneId, cid, phone⟩],
        nextPhoneId := db.nextPhoneId + 1 }, true)

/-- The phone loop of add_client: each number is handed to add_phone in
order, failures ignored. -/
def addPhonesList (db : DB) (cid : Nat) : List String → DB
  | [] => db
  | p :: ps => addPhonesList (add_phone db cid p).1 cid ps

/-- Function 2, add_client: INSERT INTO clients ... RETURNING client_id;
a duplicate email makes the INSERT raise, the handler returns -1 and no
row is created.  On success the optional phone list is added via
add_phone and the fresh id is returned. -/
def add_client (db : DB) (fn ln em : String) (phs : Option (List String)) :
    DB × Int :=
  if emailExists db em then (db, -1)
  else
    let cid := db.nextClientId
    let db1 : DB :=
      { db with
          clients := db.clients ++ [⟨cid, fn, ln, em⟩],
          nextClientId := cid + 1 }
    let db2 :=
      match phs with
      | some ps => addPhonesList db1 cid ps
      | none => db1
    (db2, (cid : Int))

/-- Core of function 4, update_client, after the keyword arguments have
been read: existence check, empty-field check, then UPDATE clients SET
... WHERE client_id = cid.  A new email equal to another row's email
violates the UNIQUE constraint, the handler returns false and nothing
changes. -/
def update_run (db : DB) (cid : Nat) (fn ln em : Option String) : DB × Bool :=
  if clientExists db cid = false then (db, false)
  else if fn.isNone && ln.isNone && em.isNone then (db, false)
  else if (match em with
           | some e => db.clients.any (fun c => c.client_id != cid && c.email == e)
           | none => false) then (db, false)
  else
    ({ db with
        clients := db.clients.map (fun c =>
          if c.client_id == cid then
            { c with
                first_name := fn.getD c.first_name,
                last_name := ln.getD c.last_name,
                email := em.getD c.email }
          else c) }, true)

/-- Function 4, update_client: reads the three recognized keys from the
keyword arguments (all other keys are never consulted) and runs the
update. -/
def update_client (db : DB) (cid : Nat) (kwargs : List (String × String)) :
    DB × Bool :=
  update_run db cid (getArg kwargs "first_name") (getArg kwargs "last_name")
    (getArg kwargs "email")

/-- Function 5, delete_phone: existence check, then DELETE FROM phones
WHERE client_id = cid AND phone_number = phone RETURNING phone_id;
true exactly when a row was deleted. -/
def delete_phone (db : DB) (cid : Nat) (phone : String) : DB × Bool :=
  if clientExists db cid = false then (db, false)
  else
    ({ db with
        phones := db.phones.filter
          (fun p => !(p.client_id == cid && p.phone_number == phone)) },
     db.phones.any (fun p => p.client_id == cid && p.phone_number == phone))

/-- Function 6, delete_client: existence check, then DELETE FROM clients
WHERE client_id = cid; ON DELETE CASCADE removes the phones of that
client in the same operation. -/
def delete_client (db : DB) (cid : Nat) : DB × Bool :=
  if clientExists db cid = false then (db, false)
  else
    ({ db with
        clients := db.clients.filter (fun c => c.client_id != cid),
        phones := db.phones.filter (fun p => p.client_id != cid) }, true)

/-- The phone numbers owned by a client, in table order. -/
def clientPhones (db : DB) (cid : Nat) : List String :=
  (db.phones.filter (fun p => p.client_id == cid)).map (fun p => p.phone_number)

/-- The rows LEFT JOIN phones produces for one client row: one row per
owned phone, or a single row with a NULL phone when it owns none. -/
def joinRows (db : DB) (c : Client) : List (Option String) :=
  if (clientPhones db c.client_id).isEmpty then [none]
  else (clientPhones db c.client_id).map some

/-- The ORDER BY c.client_id clause. -/
def clientLE (a b : Client) : Prop := a.client_id ≤ b.client_id

instance : DecidableRel clientLE := fun a b => Nat.decLe a.client_id b.client_id

instance : IsTotal Client clientLE := ⟨fun a b => Nat.le_total a.client_id b.client_id⟩

instance : IsTrans Client clientLE := ⟨fun _ _ _ h1 h2 => Nat.le_trans h1 h2⟩

/-- Sorting of result rows by client id ascending. -/
def sortClients (l : List Client) : List Client := List.insertionSort clientLE l

/-- The three WHERE conditions of find_client that read columns of the
clients table, conjoined in the order the code builds them. -/
def cCondSat (fn ln em : Option String) (c : Client) : Bool :=
  (match fn with | some v => substrCI v c.first_name | none => true)
  && (match ln with | some v => substrCI v c.last_name | none => true)
  && (match em with | some v => substrCI v c.email | none => true)

/-- The phone condition of find_client on the joined phone column; a
comparison against SQL NULL is not true. -/
def phoneCondSat (ph : Option String) (p : Option String) : Bool :=
  match ph with
  | some v => (match p with | some num => substrCI v num | none => false)
  | none => true

/-- The whole WHERE clause of find_client on one joined row. -/
def condSat (fn ln em ph : Option String) (c : Client) (p : Option String) :
    Bool :=
  cCondSat fn ln em c && phoneCondSat ph p

/-- Projection of a client row plus an aggregated phones column into the
dictionary find_client and the getters build. -/
structure ClientView where
  client_id : Nat
  first_name : String
  last_name : String
  email : String
  phones : List (Option String)
deriving Repr, DecidableEq

/-- Builds the result dictionary for one client row. -/
def toView (c : Client) (phs : List (Option String)) : ClientView :=
  ⟨c.client_id, c.first_name, c.last_name, c.email, phs⟩

/-- One result row of find_client: ARRAY_AGG(p.phone_number) FILTER
(WHERE p.phone_number IS NOT NULL) over the joined rows of the group
that passed the WHERE clause; the aggregate of an empty set is NULL,
which the Python side turns into an empty list. -/
def resultView (db : DB) (fn ln em ph : Option String) (c : Client) :
    ClientView :=
  let agg := ((joinRows db c).filter (fun p => condSat fn ln em ph c p)).filterMap id
  toView c (if agg.isEmpty then [] else agg.map some)

/-- Core of function 7, find_client, after the keyword arguments have
been read: with no condition the query is never issued and the empty
list returned; otherwise the SELECT with LEFT JOIN, WHERE, GROUP BY
client and ORDER BY client_id runs, one result row per client with at
least one joined row passing the WHERE clause. -/
def find_run (db : DB) (fn ln em ph : Option String) : List ClientView :=
  if (fn.isSome || ln.isSome || em.isSome || ph.isSome) = false then []
  else
    ((sortClients db.clients).filter
        (fun c => (joinRows db c).any (fun p => condSat fn ln em ph c p))).map
      (fun c => resultView db fn ln em ph c)

/-- Function 7, find_client: reads the four recognized keys from the
keyword arguments (all other keys are never consulted) and runs the
query. -/
def find_client (db : DB) (kwargs : List (String × String)) : List ClientView :=
  find_run db (getArg kwargs "first_name") (getArg kwargs "last_name")
    (getArg kwargs "email") (getArg kwargs "phone")

/-- Getter get_client_info: the same join and grouping but with a bare
ARRAY_AGG(p.phone_number), no FILTER clause, so the NULL of a phoneless
client is aggregated into the array; the Python guard only replaces a
NULL array, not an array containing NULL. -/
def get_client_info (db : DB) (cid : Nat) : Option ClientView :=
  match db.clients.find? (fun c => c.client_id == cid) with
  | none => none
  | some c =>
    let agg := joinRows db c
    some (toView c (if agg.isEmpty then [] else agg))

/-- Getter get_all_clients: every client ordered by id, phones aggregated
with a bare ARRAY_AGG, no FILTER clause. -/
def get_all_clients (db : DB) : List ClientView :=
  (sortClients db.clients).map (fun c =>
    let agg := joinRows db c
    toView c (if agg.isEmpty then [] else agg))

/-- One mutating call of the repository, from any state. -/
inductive Step : DB → DB → Prop
  | addClient (db : DB) (fn ln em : String) (phs : Option (List String)) :
      Step db (add_client db fn ln em phs).1
  | addPhone (db : DB) (cid : Nat) (ph : String) :
      Step db (add_phone db cid ph).1
  | updateClient (db : DB) (cid : Nat) (kwargs : List (String × String)) :
      Step db (update_client db cid kwargs).1
  | deletePhone (db : DB) (cid : Nat) (ph : String) :
      Step db (delete_phone db cid ph).1
  | deleteClient (db : DB) (cid : Nat) :
      Step db (delete_client db cid).1

/-- States the program can reach from a fresh database by repository
calls. -/
inductive Reachable : DB → Prop
  | init : Reachable initialDB
  | step {db db' : DB} : Reachable db → Step db db' → Reachable db'

/-- No orphan phones: every phone row references an existing client. -/
def NoOrphans (db : DB) : Prop :=
  ∀ p ∈ db.phones, ∃ c ∈ db.clients, c.client_id = p.client_id

/-- A client satisfies a find_client call exactly when every supplied
column filter substring-matches case-insensitively and, when a phone
filter is supplied, some owned phone substring-matches it. -/
def clientMatches (db : DB) (fn ln em ph : Option String) (c : Client) : Bool :=
  cCondSat fn ln em c
  && (match ph with
      | some v => (clientPhones db c.client_id).any (fun n => substrCI v n)
      | none => true)

/-! Concrete states used as witnesses. -/

/-- A state with one client (id 1) owning phones 12 and 34. -/
def ivanDB : DB := (add_client initialDB "Ivan" "Ivanov" "i@e" (some ["12", "34"])).1

/-- A state with one client (id 1) owning no phone at all. -/
def mariaDB : DB := (add_client initialDB "Maria" "Sidorova" "m@e" none).1

/-! Helper lemmas. -/

lemma any_map_comp {α β : Type} (f : α → β) (p : β → Bool) (l : List α) :
    (l.map f).any p = l.any (fun x => p (f x)) := by
  induction l with
  | nil => rfl
  | cons a as ih => simp [List.any_cons, ih]

lemma filterMap_id_map_some {α : Type} (l : List α) :
    (l.map some).filterMap id = l := by
  induction l with
  | nil => rfl
  | cons a as ih => simp [List.filterMap_cons, ih]

lemma add_phone_keeps_clients (db : DB) (cid : Nat) (ph : String) :
    (add_phone db cid ph).1.clients = db.clients
    ∧ (add_phone db cid ph).1.nextClientId = db.nextClientId := by
  unfold add_phone
  split
  · exact ⟨rfl, rfl⟩
  · split
    · exact ⟨rfl, rfl⟩
    · exact ⟨rfl, rfl⟩

lemma addPhonesList_keeps_clients (cid : Nat) (ps : List String) (db : DB) :
    (addPhonesList db cid ps).clients = db.clients
    ∧ (addPhonesList db cid ps).nextClientId = db.nextClientId := by
  induction ps generalizing db with
  | nil => exact ⟨rfl, rfl⟩
  | cons p ps ih =>
    have h1 := add_phone_keeps_clients db cid p
    have h2 := ih (add_phone db cid p).1
    exact ⟨h2.1.trans h1.1, h2.2.trans h1.2⟩

/-! Claim theorems. -/

/-- C3: add_phone returns true and appends exactly one new phone row
precisely when the client exists and the number is not already present
anywhere in the phones table; in every other case it returns false and
the state is unchanged. -/
theorem add_phone_success_iff (db : DB) (cid : Nat) (ph : String) :
    ((add_phone db cid ph).2 = true ↔
      clientExists db cid = true ∧ phoneNumberExists db ph = false)
    ∧ ((add_phone db cid ph).2 = true →
        (add_phone db cid ph).1.phones = db.phones ++ [⟨db.nextPhoneId, cid, ph⟩]
        ∧ (add_phone db cid ph).1.clients = db.clients)
    ∧ ((add_phone db cid ph).2 = false → (add_phone db cid ph).1 = db) := by
  cases hc : clientExists db cid <;> cases hp : phoneNumberExists db ph <;>
    simp [add_phone, hc, hp]

/-- Witness for C3: in ivanDB, adding a fresh number to client 1
succeeds. -/
theorem add_phone_success_iff_witness : (add_phone ivanDB 1 "99").2 = true :=
  ((add_phone_success_iff ivanDB 1 "99").1).mpr (by decide)

/-- C4: add_client with an email already present inserts nothing and
returns -1; with a fresh email it returns the newly assigned id and the
client row is appended. -/
theorem add_client_duplicate_email (db : DB) (fn ln em : String)
    (phs : Option (List String)) :
    (emailExists db em = true → add_client db fn ln em phs = (db, -1))
    ∧ (emailExists db em = false →
        (add_client db fn ln em phs).2 = (db.nextClientId : Int)
        ∧ (add_client db fn ln em phs).1.clients
            = db.clients ++ [⟨db.nextClientId, fn, ln, em⟩]) := by
  constructor
  · intro h; simp [add_client, h]
  · intro h
    cases phs with
    | none => simp [add_client, h]
    | some ps =>
      refine ⟨by simp [add_client, h], ?_⟩
      simp only [add_client, h, if_false, Bool.false_eq_true]
      exact (addPhonesList_keeps_clients _ ps _).1

/-- Witness for C4: duplicate email in ivanDB is rejected with -1 and no
state change, and a fresh email gets the next id 2. -/
theorem add_client_duplicate_email_witness :
    add_client ivanDB "X" "Y" "i@e" none = (ivanDB, -1)
    ∧ (add_client ivanDB "X" "Y" "x@e" none).2 = ((2 : Nat) : Int) :=
  ⟨(add_client_duplicate_email ivanDB "X" "Y" "i@e" none).1 (by decide),
   ((add_client_duplicate_email ivanDB "X" "Y" "x@e" none).2 (by decide)).1⟩

/-- C8: update_client with an empty keyword mapping returns false and
changes nothing, whatever the state and client id. -/
theorem update_client_empty_fields (db : DB) (cid : Nat) :
    update_client db cid [] = (db, false) := by
  show update_run db cid none none none = (db, false)
  cases h : clientExists db cid <;> simp [update_run, h]

/-- C9: find_client with an empty filter set returns the empty list,
whatever the database contents. -/
theorem find_client_no_filters (db : DB) : find_client db [] = [] := rfl

/-- C2 fails on the code: for a client owning zero phones, both getters
aggregate the NULL produced by LEFT JOIN (their ARRAY_AGG carries no
FILTER clause), and the guard only replaces a NULL array, so the phones
field is a one-element list containing NULL rather than the empty
list. -/
theorem get_client_null_phone_entry :
    get_client_info mariaDB 1 = some ⟨1, "Maria", "Sidorova", "m@e", [none]⟩
    ∧ get_all_clients mariaDB = [⟨1, "Maria", "Sidorova", "m@e", [none]⟩] := by
  decide

/-- C10: both keyword-reading operations consult only their recognized
keys, so two argument lists agreeing on those keys are interchangeable;
in particular a list carrying none of the recognized keys makes
update_client return false with nothing changed and find_client return
the empty list. -/
theorem kwargs_unrecognized_ignored (db : DB) (cid : Nat)
    (kwargs kwargs2 : List (String × String))
    (h1 : getArg kwargs "first_name" = getArg kwargs2 "first_name")
    (h2 : getArg kwargs "last_name" = getArg kwargs2 "last_name")
    (h3 : getArg kwargs "email" = getArg kwargs2 "email")
    (h4 : getArg kwargs "phone" = getArg kwargs2 "phone") :
    (update_client db cid kwargs = update_client db cid kwargs2
      ∧ find_client db kwargs = find_client db kwargs2)
    ∧ (getArg kwargs "first_name" = none → getArg kwargs "last_name" = none →
        getArg kwargs "email" = none → update_client db cid kwargs = (db, false))
    ∧ (getArg kwargs "first_name" = none → getArg kwargs "last_name" = none →
        getArg kwargs "email" = none → getArg kwargs "phone" = none →
        find_client db kwargs = []) := by
  refine ⟨⟨?_, ?_⟩, ?_, ?_⟩
  · unfold update_client; rw [h1, h2, h3]
  · unfold find_client; rw [h1, h2, h3, h4]
  · intro a b c
    unfold update_client; rw [a, b, c]
    cases h : clientExists db cid <;> simp [update_run, h]
  · intro a b c d
    unfold find_client; rw [a, b, c, d]; rfl

/-- Witness for C10: an argument list carrying only the unrecognized key
nickname behaves like the empty list on ivanDB. -/
theorem kwargs_unrecognized_ignored_witness :
    (update_client ivanDB 1 [("nickname", "x")] = update_client ivanDB 1 []
      ∧ find_client ivanDB [("nickname", "x")] = find_client ivanDB [])
    ∧ (getArg [("nickname", "x")] "first_name" = none →
        getArg [("nickname", "x")] "last_name" = none →
        getArg [("nickname", "x")] "email" = none →
        update_client ivanDB 1 [("nickname", "x")] = (ivanDB, false))
    ∧ (getArg [("nickname", "x")] "first_name" = none →
        getArg [("nickname", "x")] "last_name" = none →
        getArg [("nickname", "x")] "email" = none →
        getArg [("nickname", "x")] "phone" = none →
        find_client ivanDB [("nickname", "x")] = []) :=
  kwargs_unrecognized_ignored ivanDB 1 [("nickname", "x")] []
    (by decide) (by decide) (by decide) (by decide)

lemma ite_isEmpty_map_some {α β : Type} (f : α → β) (l : List α) :
    (if l.isEmpty then ([] : List β) else l.map f) = l.map f := by
  cases l <;> rfl

/-- C1 fails on the code: with a phone filter, the WHERE clause runs
before the grouping, so ARRAY_AGG only sees the join rows whose phone
matched; a client with phones 12 and 34 searched by phone 1 comes back
with phones = [12], not its complete phone list. -/
theorem find_client_phone_filter_truncates :
    ¬ (∀ v ∈ find_client ivanDB [("phone", "1")],
        v.phones = (clientPhones ivanDB v.client_id).map some) := by
  decide

/-- C1 amended: with a phone filter, each returned row's phones field is
the list of that client's phone numbers that substring-match the phone
filter, not the complete phone list. -/
theorem find_client_phones_matched_only (db : DB)
    (kwargs : List (String × String)) (vph : String) (v : ClientView)
    (hph : getArg kwargs "phone" = some vph)
    (hv : v ∈ find_client db kwargs) :
    v.phones
      = ((clientPhones db v.client_id).filter (fun n => substrCI vph n)).map some := by
  unfold find_client at hv
  rw [hph] at hv
  unfold find_run at hv
  rw [if_neg (by simp)] at hv
  rcases List.mem_map.mp hv with ⟨c, hcmem, rfl⟩
  rcases List.mem_filter.mp hcmem with ⟨-, hpred⟩
  rcases hps : clientPhones db c.client_id with - | ⟨a, as⟩
  · rw [joinRows, hps] at hpred
    simp [condSat, phoneCondSat] at hpred
  · have hrows : joinRows db c = (a :: as).map some := by
      rw [joinRows, hps]; rfl
    rw [hrows] at hpred
    rw [any_map_comp] at hpred
    have hcc : cCondSat (getArg kwargs "first_name") (getArg kwargs "last_name")
        (getArg kwargs "email") c = true := by
      rcases List.any_eq_true.mp hpred with ⟨n, -, hn⟩
      exact ((Bool.and_eq_true _ _).mp hn).1
    show (resultView db (getArg kwargs "first_name") (getArg kwargs "last_name")
        (getArg kwargs "email") (some vph) c).phones = _
    unfold resultView
    rw [hrows]
    rw [List.filter_map]
    have hfeq : (a :: as).filter
        ((fun p => condSat (getArg kwargs "first_name") (getArg kwargs "last_name")
          (getArg kwargs "email") (some vph) c p) ∘ some)
        = (a :: as).filter (fun n => substrCI vph n) := by
      apply List.filter_congr
      intro n _
      simp [condSat, phoneCondSat, hcc, Function.comp]
    rw [hfeq, filterMap_id_map_some]
    show (if ((a :: as).filter (fun n => substrCI vph n)).isEmpty then []
      else ((a :: as).filter (fun n => substrCI vph n)).map some)
      = ((clientPhones db c.client_id).filter (fun n => substrCI vph n)).map some
    rw [ite_isEmpty_map_some, hps]

/-- Witness for C1 amended: the one row returned for phone filter 1 in
ivanDB carries exactly the matching number 12. -/
theorem find_client_phones_matched_only_witness :
    (⟨1, "Ivan", "Ivanov", "i@e", [some "12"]⟩ : ClientView).phones
      = ((clientPhones ivanDB
            (⟨1, "Ivan", "Ivanov", "i@e", [some "12"]⟩ : ClientView).client_id).filter
          (fun n => substrCI "1" n)).map some :=
  find_client_phones_matched_only ivanDB [("phone", "1")] "1"
    ⟨1, "Ivan", "Ivanov", "i@e", [some "12"]⟩ (by decide) (by decide)

lemma any_condSat_eq_clientMatches (db : DB) (fn ln em ph : Option String)
    (c : Client) :
    (joinRows db c).any (fun p => condSat fn ln em ph c p)
      = clientMatches db fn ln em ph c := by
  unfold joinRows clientMatches
  rcases hps : clientPhones db c.client_id with - | ⟨a, as⟩
  · cases ph <;> cases hcc : cCondSat fn ln em c <;>
      simp [condSat, phoneCondSat, hcc]
  · show ((a :: as).map some).any _ = _
    rw [any_map_comp]
    cases ph with
    | none =>
      cases hcc : cCondSat fn ln em c <;> simp [condSat, phoneCondSat, hcc]
    | some vph =>
      cases hcc : cCondSat fn ln em c <;> simp [condSat, phoneCondSat, hcc]

lemma find_run_characterization (db : DB) (fn ln em ph : Option String)
    (hnd : (db.clients.map (fun c => c.client_id)).Nodup)
    (hf : (fn.isSome || ln.isSome || em.isSome || ph.isSome) = true) :
    (∀ v ∈ find_run db fn ln em ph, ∃ c ∈ db.clients,
        c.client_id = v.client_id ∧ c.first_name = v.first_name
        ∧ c.last_name = v.last_name ∧ c.email = v.email
        ∧ clientMatches db fn ln em ph c = true)
    ∧ (∀ c ∈ db.clients, clientMatches db fn ln em ph c = true →
        ∃ v ∈ find_run db fn ln em ph, v.client_id = c.client_id)
    ∧ (find_run db fn ln em ph).Pairwise
        (fun a b => a.client_id < b.client_id) := by
  have hperm : (sortClients db.clients).Perm db.clients :=
    List.perm_insertionSort clientLE db.clients
  unfold find_run
  rw [if_neg (by simp [hf])]
  refine ⟨?_, ?_, ?_⟩
  · intro v hv
    rcases List.mem_map.mp hv with ⟨c, hcmem, rfl⟩
    rcases List.mem_filter.mp hcmem with ⟨hcs, hpred⟩
    refine ⟨c, hperm.mem_iff.mp hcs, rfl, rfl, rfl, rfl, ?_⟩
    rw [← any_condSat_eq_clientMatches]
    exact hpred
  · intro c hc hm
    refine ⟨resultView db fn ln em ph c, ?_, rfl⟩
    apply List.mem_map_of_mem
    refine List.mem_filter.mpr ⟨hperm.mem_iff.mpr hc, ?_⟩
    rw [any_condSat_eq_clientMatches]
    exact hm
  · have hsorted : List.Pairwise clientLE (sortClients db.clients) :=
      List.sorted_insertionSort clientLE db.clients
    have hfil : List.Pairwise clientLE
        ((sortClients db.clients).filter
          (fun c => (joinRows db c).any (fun p => condSat fn ln em ph c p))) :=
      List.Pairwise.sublist (List.filter_sublist _) hsorted
    have hnods : ((sortClients db.clients).map (fun c => c.client_id)).Nodup :=
      (List.Perm.nodup_iff (hperm.map (fun c => c.client_id))).mpr hnd
    have hnodf : (((sortClients db.clients).filter
        (fun c => (joinRows db c).any (fun p => condSat fn ln em ph c p))).map
          (fun c => c.client_id)).Nodup :=
      List.Nodup.sublist
        (List.Sublist.map (fun c : Client => c.client_id)
          (List.filter_sublist _)) hnods
    have hpne : List.Pairwise (fun a b : Client => a.client_id ≠ b.client_id)
        ((sortClients db.clients).filter
          (fun c => (joinRows db c).any (fun p => condSat fn ln em ph c p))) :=
      List.pairwise_map.mp hnodf
    refine List.pairwise_map.mpr ((hfil.and hpne).imp ?_)
    intro a b h
    exact Nat.lt_of_le_of_ne h.1 h.2

/-- C5: find_client with a non-empty filter set returns exactly the
clients for which every supplied filter substring-matches
case-insensitively (the phone filter against any owned phone), combined
with logical AND, one result row per matching client, ordered by
strictly ascending client id. -/
theorem find_client_characterization (db : DB) (kwargs : List (String × String))
    (hnd : (db.clients.map (fun c => c.client_id)).Nodup)
    (hf : ((getArg kwargs "first_name").isSome || (getArg kwargs "last_name").isSome
        || (getArg kwargs "email").isSome || (getArg kwargs "phone").isSome) = true) :
    (∀ v ∈ find_client db kwargs, ∃ c ∈ db.clients,
        c.client_id = v.client_id ∧ c.first_name = v.first_name
        ∧ c.last_name = v.last_name ∧ c.email = v.email
        ∧ clientMatches db (getArg kwargs "first_name") (getArg kwargs "last_name")
            (getArg kwargs "email") (getArg kwargs "phone") c = true)
    ∧ (∀ c ∈ db.clients,
        clientMatches db (getArg kwargs "first_name") (getArg kwargs "last_name")
          (getArg kwargs "email") (getArg kwargs "phone") c = true →
        ∃ v ∈ find_client db kwargs, v.client_id = c.client_id)
    ∧ (find_client db kwargs).Pairwise (fun a b => a.client_id < b.client_id) := by
  unfold find_client
  exact find_run_characterization db (getArg kwargs "first_name")
    (getArg kwargs "last_name") (getArg kwargs "email") (getArg kwargs "phone")
    hnd hf

/-- A state with two clients: id 1 Ivan with phone 12, id 2 Petr with no
phone. -/
def twoDB : DB :=
  (add_client (add_client initialDB "Ivan" "Ivanov" "i@e" (some ["12"])).1
    "Petr" "Petrov" "p@e" none).1

/-- Witness for C5: the email filter at-sign-e matches both clients of
twoDB. -/
theorem find_client_characterization_witness :
    (∀ v ∈ find_client twoDB [("email", "@e")], ∃ c ∈ twoDB.clients,
        c.client_id = v.client_id ∧ c.first_name = v.first_name
        ∧ c.last_name = v.last_name ∧ c.email = v.email
        ∧ clientMatches twoDB (getArg [("email", "@e")] "first_name")
            (getArg [("email", "@e")] "last_name")
            (getArg [("email", "@e")] "email")
            (getArg [("email", "@e")] "phone") c = true)
    ∧ (∀ c ∈ twoDB.clients,
        clientMatches twoDB (getArg [("email", "@e")] "first_name")
          (getArg [("email", "@e")] "last_name")
          (getArg [("email", "@e")] "email")
          (getArg [("email", "@e")] "phone") c = true →
        ∃ v ∈ find_client twoDB [("email", "@e")], v.client_id = c.client_id)
    ∧ (find_client twoDB [("email", "@e")]).Pairwise
        (fun a b => a.client_id < b.client_id) :=
  find_client_characterization twoDB [("email", "@e")] (by decide) (by decide)

lemma clientExists_iff (db : DB) (cid : Nat) :
    clientExists db cid = true ↔ ∃ c ∈ db.clients, c.client_id = cid := by
  simp [clientExists, List.any_eq_true]

lemma noOrphans_add_phone (db : DB) (cid : Nat) (ph : String)
    (h : NoOrphans db) : NoOrphans (add_phone db cid ph).1 := by
  cases hex : clientExists db cid with
  | false =>
    have : (add_phone db cid ph).1 = db := by simp [add_phone, hex]
    rw [this]; exact h
  | true =>
    cases hpn : phoneNumberExists db ph with
    | true =>
      have : (add_phone db cid ph).1 = db := by simp [add_phone, hex, hpn]
      rw [this]; exact h
    | false =>
      have hres : (add_phone db cid ph).1
          = { db with
                phones := db.phones ++ [⟨db.nextPhoneId, cid, ph⟩],
                nextPhoneId := db.nextPhoneId + 1 } := by
        simp [add_phone, hex, hpn]
      rw [hres]
      intro p hp
      rcases List.mem_append.mp hp with hp | hp
      · exact h p hp
      · have hp2 : p = ⟨db.nextPhoneId, cid, ph⟩ := by simpa using hp
        subst hp2
        rcases (clientExists_iff db cid).mp hex with ⟨c, hc, hcc⟩
        exact ⟨c, hc, hcc⟩

lemma noOrphans_addPhonesList (cid : Nat) (ps : List String) :
    ∀ db : DB, NoOrphans db → NoOrphans (addPhonesList db cid ps) := by
  induction ps with
  | nil => intro db h; exact h
  | cons p ps ih =>
    intro db h
    exact ih (add_phone db cid p).1 (noOrphans_add_phone db cid p h)

lemma noOrphans_add_client (db : DB) (fn ln em : String)
    (phs : Option (List String)) (h : NoOrphans db) :
    NoOrphans (add_client db fn ln em phs).1 := by
  cases hem : emailExists db em with
  | true =>
    have : (add_client db fn ln em phs).1 = db := by simp [add_client, hem]
    rw [this]; exact h
  | false =>
    have h1 : NoOrphans
        { db with
            clients := db.clients ++ [⟨db.nextClientId, fn, ln, em⟩],
            nextClientId := db.nextClientId + 1 } := by
      intro p hp
      rcases h p hp with ⟨c, hc, hcc⟩
      exact ⟨c, List.mem_append.mpr (Or.inl hc), hcc⟩
    cases phs with
    | none =>
      have : (add_client db fn ln em none).1
          = { db with
                clients := db.clients ++ [⟨db.nextClientId, fn, ln, em⟩],
                nextClientId := db.nextClientId + 1 } := by
        simp [add_client, hem]
      rw [this]; exact h1
    | some ps =>
      have : (add_client db fn ln em (some ps)).1
          = addPhonesList
              { db with
                  clients := db.clients ++ [⟨db.nextClientId, fn, ln, em⟩],
                  nextClientId := db.nextClientId + 1 } db.nextClientId ps := by
        simp [add_client, hem]
      rw [this]
      exact noOrphans_addPhonesList db.nextClientId ps _ h1

lemma noOrphans_update_run (db : DB) (cid : Nat) (fn ln em : Option String)
    (h : NoOrphans db) : NoOrphans (update_run db cid fn ln em).1 := by
  unfold update_run
  split
  · exact h
  · split
    · exact h
    · split
      · exact h
      · intro p hp
        rcases h p hp with ⟨c, hc, hcc⟩
        refine ⟨if c.client_id == cid then
            { c with
                first_name := fn.getD c.first_name,
                last_name := ln.getD c.last_name,
                email := em.getD c.email }
          else c, List.mem_map_of_mem _ hc, ?_⟩
        split <;> exact hcc

lemma noOrphans_delete_phone (db : DB) (cid : Nat) (ph : String)
    (h : NoOrphans db) : NoOrphans (delete_phone db cid ph).1 := by
  unfold delete_phone
  split
  · exact h
  · intro p hp
    exact h p (List.mem_filter.mp hp).1

lemma noOrphans_delete_client (db : DB) (cid : Nat)
    (h : NoOrphans db) : NoOrphans (delete_client db cid).1 := by
  unfold delete_client
  split
  · exact h
  · intro p hp
    rcases List.mem_filter.mp hp with ⟨hp1, hp2⟩
    rcases h p hp1 with ⟨c, hc, hcc⟩
    refine ⟨c, List.mem_filter.mpr ⟨hc, ?_⟩, hcc⟩
    have : p.client_id ≠ cid := by simpa using hp2
    simp [hcc, this]

lemma reachable_noOrphans {db : DB} (hr : Reachable db) : NoOrphans db := by
  induction hr with
  | init => intro p hp; simp [initialDB] at hp
  | step _ hs ih =>
    cases hs with
    | addClient fn ln em phs => exact noOrphans_add_client _ fn ln em phs ih
    | addPhone cid ph => exact noOrphans_add_phone _ cid ph ih
    | updateClient cid kwargs => exact noOrphans_update_run _ cid _ _ _ ih
    | deletePhone cid ph => exact noOrphans_delete_phone _ cid ph ih
    | deleteClient cid => exact noOrphans_delete_client _ cid ih

/-- C6: in every reachable state no phone row references a missing
client, and a successful delete_client leaves, in the very state it
returns, no client row and no phone row carrying the deleted id. -/
theorem delete_client_cascades_no_orphans (db : DB) (cid : Nat)
    (hr : Reachable db) :
    NoOrphans db
    ∧ ((delete_client db cid).2 = true →
        (∀ c ∈ (delete_client db cid).1.clients, c.client_id ≠ cid)
        ∧ (∀ p ∈ (delete_client db cid).1.phones, p.client_id ≠ cid)) := by
  refine ⟨reachable_noOrphans hr, ?_⟩
  intro hdel
  cases hex : clientExists db cid with
  | false => simp [delete_client, hex] at hdel
  | true =>
    have hres : (delete_client db cid).1
        = { db with
            clients := db.clients.filter (fun c => c.client_id != cid),
            phones := db.phones.filter (fun p => p.client_id != cid) } := by
      simp [delete_client, hex]
    rw [hres]
    constructor
    · intro c hc
      simpa using (List.mem_filter.mp hc).2
    · intro p hp
      simpa using (List.mem_filter.mp hp).2

/-- Witness for C6: ivanDB is reachable in one step from the fresh
state, has no orphan phones, and deleting client 1 leaves no row with
id 1 in either table. -/
theorem delete_client_cascades_no_orphans_witness :
    NoOrphans ivanDB
    ∧ ((delete_client ivanDB 1).2 = true →
        (∀ c ∈ (delete_client ivanDB 1).1.clients, c.client_id ≠ 1)
        ∧ (∀ p ∈ (delete_client ivanDB 1).1.phones, p.client_id ≠ 1)) :=
  delete_client_cascades_no_orphans ivanDB 1
    (Reachable.step Reachable.init
      (Step.addClient initialDB "Ivan" "Ivanov" "i@e" (some ["12", "34"])))

lemma update_run_frame (db : DB) (cid : Nat) (fn ln em : Option String)
    (hex : clientExists db cid = true)
    (hfld : (fn.isSome || ln.isSome || em.isSome) = true) :
    ((update_run db cid fn ln em).2 = false → (update_run db cid fn ln em).1 = db)
    ∧ ((update_run db cid fn ln em).2 = true ↔
        ∀ e, em = some e →
          db.clients.any (fun c => c.client_id != cid && c.email == e) = false)
    ∧ ((update_run db cid fn ln em).2 = true →
        (update_run db cid fn ln em).1.phones = db.phones
        ∧ (update_run db cid fn ln em).1.nextClientId = db.nextClientId
        ∧ (update_run db cid fn ln em).1.nextPhoneId = db.nextPhoneId
        ∧ (update_run db cid fn ln em).1.clients.length = db.clients.length
        ∧ ∀ i (h1 : i < db.clients.length)
            (h2 : i < (update_run db cid fn ln em).1.clients.length),
            ((db.clients.get ⟨i, h1⟩).client_id ≠ cid →
              (update_run db cid fn ln em).1.clients.get ⟨i, h2⟩
                = db.clients.get ⟨i, h1⟩)
            ∧ ((db.clients.get ⟨i, h1⟩).client_id = cid →
                ((update_run db cid fn ln em).1.clients.get ⟨i, h2⟩).client_id = cid
                ∧ ((update_run db cid fn ln em).1.clients.get ⟨i, h2⟩).first_name
                    = fn.getD (db.clients.get ⟨i, h1⟩).first_name
                ∧ ((update_run db cid fn ln em).1.clients.get ⟨i, h2⟩).last_name
                    = ln.getD (db.clients.get ⟨i, h1⟩).last_name
                ∧ ((update_run db cid fn ln em).1.clients.get ⟨i, h2⟩).email
                    = em.getD (db.clients.get ⟨i, h1⟩).email)) := by
  have hnone : (fn.isNone && ln.isNone && em.isNone) = false := by
    cases fn <;> cases ln <;> cases em <;> simp_all
  cases hconf : (match em with
      | some e => db.clients.any (fun c => c.client_id != cid && c.email == e)
      | none => false) with
  | true =>
    have hres : update_run db cid fn ln em = (db, false) := by
      unfold update_run
      rw [if_neg (by simp [hex]), if_neg (by simp [hnone]), if_pos hconf]
    rw [hres]
    refine ⟨fun _ => rfl, ?_, by intro h; cases h⟩
    constructor
    · intro h; cases h
    · intro hall
      exfalso
      cases em with
      | none => simp at hconf
      | some e =>
        have he := hall e rfl
        have hconf2 : (db.clients.any fun c => c.client_id != cid && c.email == e)
            = true := hconf
        rw [he] at hconf2
        cases hconf2
  | false =>
    have hres : update_run db cid fn ln em
        = ({ db with clients := db.clients.map (fun c =>
              if c.client_id == cid then
                { c with
                    first_name := fn.getD c.first_name,
                    last_name := ln.getD c.last_name,
                    email := em.getD c.email }
              else c) }, true) := by
      unfold update_run
      rw [if_neg (by simp [hex]), if_neg (by simp [hnone]),
        if_neg (by simp [hconf])]
    rw [hres]
    refine ⟨?_, ?_, ?_⟩
    · intro h; cases h
    · constructor
      · intro _ e he
        subst he
        simpa using hconf
      · intro _; rfl
    · intro _
      refine ⟨rfl, rfl, rfl, by simp, ?_⟩
      intro i h1 h2
      simp only [List.get_eq_getElem, List.getElem_map]
      constructor
      · intro hne
        rw [if_neg (by simpa using hne)]
      · intro heq
        rw [if_pos (by simpa using heq)]
        exact ⟨heq, rfl, rfl, rfl⟩

/-- C7: on an existing client with at least one recognized field
supplied, update_client succeeds exactly when the supplied email (if
any) does not collide with another client's email; on failure the state
is untouched, and on success only the targeted row changes, its
supplied columns taking the supplied values, its other columns and all
other rows, phones and sequences staying as they were. -/
theorem update_client_frame (db : DB) (cid : Nat) (kwargs : List (String × String))
    (hex : clientExists db cid = true)
    (hfld : ((getArg kwargs "first_name").isSome || (getArg kwargs "last_name").isSome
        || (getArg kwargs "email").isSome) = true) :
    ((update_client db cid kwargs).2 = false → (update_client db cid kwargs).1 = db)
    ∧ ((update_client db cid kwargs).2 = true ↔
        ∀ e, getArg kwargs "email" = some e →
          db.clients.any (fun c => c.client_id != cid && c.email == e) = false)
    ∧ ((update_client db cid kwargs).2 = true →
        (update_client db cid kwargs).1.phones = db.phones
        ∧ (update_client db cid kwargs).1.nextClientId = db.nextClientId
        ∧ (update_client db cid kwargs).1.nextPhoneId = db.nextPhoneId
        ∧ (update_client db cid kwargs).1.clients.length = db.clients.length
        ∧ ∀ i (h1 : i < db.clients.length)
            (h2 : i < (update_client db cid kwargs).1.clients.length),
            ((db.clients.get ⟨i, h1⟩).client_id ≠ cid →
              (update_client db cid kwargs).1.clients.get ⟨i, h2⟩
                = db.clients.get ⟨i, h1⟩)
            ∧ ((db.clients.get ⟨i, h1⟩).client_id = cid →
                ((update_client db cid kwargs).1.clients.get ⟨i, h2⟩).client_id = cid
                ∧ ((update_client db cid kwargs).1.clients.get ⟨i, h2⟩).first_name
                    = (getArg kwargs "first_name").getD
                        (db.clients.get ⟨i, h1⟩).first_name
                ∧ ((update_client db cid kwargs).1.clients.get ⟨i, h2⟩).last_name
                    = (getArg kwargs "last_name").getD
                        (db.clients.get ⟨i, h1⟩).last_name
                ∧ ((update_client db cid kwargs).1.clients.get ⟨i, h2⟩).email
                    = (getArg kwargs "email").getD
                        (db.clients.get ⟨i, h1⟩).email)) := by
  unfold update_client
  exact update_run_frame db cid (getArg kwargs "first_name")
    (getArg kwargs "last_name") (getArg kwargs "email") hex hfld

/-- Witness for C7: renaming client 1 of ivanDB succeeds, since no email
is supplied at all. -/
theorem update_client_frame_witness :
    (update_client ivanDB 1 [("first_name", "Petr")]).2 = true :=
  ((update_client_frame ivanDB 1 [("first_name", "Petr")]
      (by decide) (by decide)).2.1).mpr (fun e he => by simp [getArg] at he)
